import Mathlib

/-!
Verification of the access-control and integrity layer of the
`social-media-backend` repository against its specification.

The TypeScript sources are shallowly embedded:

* `src/utils/jwt.ts` (`JwtUtils.generateToken/verifyToken/refreshToken`,
  delegating to the `jsonwebtoken` library) — section "Credential codec".
  The HMAC signature is modelled symbolically: a signature is the pair of
  the signing secret and the signed payload, and verification compares the
  attached signature with the recomputed one, which is the standard
  perfect-MAC model of a deterministic symmetric signature.
  The `jsonwebtoken` library performs its checks in this order: token
  presence / well-formedness, secret presence, signature, `exp`
  (producing `TokenExpiredError`), audience, issuer — every failure other
  than the `exp` check raises `JsonWebTokenError`.  Errors thrown by the
  TypeScript wrappers are identified by their `Error` message strings,
  exactly as the code distinguishes them.
* `src/middleware/auth.middleware.ts` (`AuthMiddleware.authorize`) —
  section "Authorization policy".
* `src/middleware/error-handler.middleware.ts` (`ErrorHandler.handle`) —
  section "Error classifier".
* `src/graphql/services/like.service.ts`, `rating.service.ts`,
  `comment.service.ts` — section "Services".  The Prisma client is
  modelled as an explicit in-memory database record passed through each
  operation; `findUnique`/`findFirst` become `List.find?`, `create`
  appends a record with a caller-supplied fresh id (Prisma generates a
  UUID), `update` maps over the list, and `delete` of a comment also
  applies the `onDelete: SetNull` action that `prisma/schema.prisma`
  declares for the self-relation `CommentReplies`.
* `src/index.ts` (the Apollo context builder) — section "Context builder".
-/

deriving instance DecidableEq for Except

namespace SMB

/-! ## Credential codec (src/utils/jwt.ts) -/

/-- `config` fields used by `JwtUtils` (src/config/env.ts).  `jwtSecret`
is `process.env.JWT_SECRET`, possibly unset; `jwtExpiresIn` is the parsed
duration in seconds (the env default "1hr" is always truthy, so the
`|| "7d"` fallback in `defaultOptions` is dead); issuer and audience fall
back to the literals in `defaultOptions`. -/
structure Config where
  jwtSecret : Option String
  jwtExpiresIn : Nat
  jwtIssuer : Option String
  jwtAudience : Option String
deriving DecidableEq, Repr

/-- The claims passed to `generateToken` (`Omit<JwtPayload, "iat"|"exp">`). -/
structure JwtClaims where
  userId : String
  username : Option String
  role : Option String
deriving DecidableEq, Repr

/-- A decoded JWT payload after signing: the caller claims plus the
registered claims `iat`, `exp`, `iss`, `aud` (seconds since epoch). -/
structure JwtPayload where
  userId : String
  username : Option String
  role : Option String
  iat : Nat
  exp : Nat
  iss : String
  aud : String
deriving DecidableEq, Repr

/-- Symbolic HMAC-SHA256 signature: determined exactly by the secret and
the signed payload. -/
structure Sig where
  secret : String
  signed : JwtPayload
deriving DecidableEq, Repr

/-- A compact serialized JWT: payload plus attached signature.  A forged
or cross-signed token is one whose `sig` differs from the signature the
configured secret produces over its payload. -/
structure Token where
  payload : JwtPayload
  sig : Sig
deriving DecidableEq, Repr

/-- The token-string argument of `verifyToken`: the empty string, a
string that does not parse as a JWT, or a well-formed serialized token. -/
inductive TokenStr where
  | empty : TokenStr
  | malformed : String → TokenStr
  | tok : Token → TokenStr
deriving DecidableEq, Repr

/-- The `TokenOptions` record (`expiresIn`, `issuer`, `audience`, each
optional); merging with `defaultOptions` is `Option.getD`. -/
structure TokenOptions where
  expiresIn : Option Nat := none
  issuer : Option String := none
  audience : Option String := none
deriving DecidableEq, Repr

/-- Default issuer: `config.jwtIssuer || "your-app-name"`. -/
def defaultIssuer (cfg : Config) : String :=
  cfg.jwtIssuer.getD "your-app-name"

/-- Default audience: `config.jwtAudience || "your-app-client"`. -/
def defaultAudience (cfg : Config) : String :=
  cfg.jwtAudience.getD "your-app-client"

/-- `JwtUtils.generateToken(payload, options)`.  Signs the claims with
`config.jwtSecret`; `jwt.sign` throws when the secret is absent or empty,
which the wrapper catches and rethrows as
`Error("Failed to generate authentication token")`.  `now` is the signing
wall-clock time in seconds; `jwt.sign` sets `iat = now` and
`exp = now + expiresIn`. -/
def generateToken (claims : JwtClaims) (options : TokenOptions)
    (cfg : Config) (now : Nat) : Except String Token :=
  match cfg.jwtSecret with
  | none => .error "Failed to generate authentication token"
  | some s =>
    if s = "" then .error "Failed to generate authentication token"
    else
      let p : JwtPayload :=
        { userId := claims.userId
          username := claims.username
          role := claims.role
          iat := now
          exp := now + options.expiresIn.getD cfg.jwtExpiresIn
          iss := options.issuer.getD (defaultIssuer cfg)
          aud := options.audience.getD (defaultAudience cfg) }
      .ok { payload := p, sig := { secret := s, signed := p } }

/-- `JwtUtils.verifyToken(token)`.  An empty token throws
`"No token provided"`, which the catch block converts to the generic
`"Authentication verification failed"`.  `jwt.verify` checks, in order:
well-formedness, secret presence, signature, expiry
(`clockTimestamp >= payload.exp`, raising `TokenExpiredError`), audience,
issuer; the wrapper maps `TokenExpiredError` to
`"Authentication token expired"` and every `JsonWebTokenError` to
`"Invalid authentication token"`. -/
def verifyToken (tok : TokenStr) (cfg : Config) (now : Nat) :
    Except String JwtPayload :=
  match tok with
  | .empty => .error "Authentication verification failed"
  | .malformed _ => .error "Invalid authentication token"
  | .tok t =>
    match cfg.jwtSecret with
    | none => .error "Invalid authentication token"
    | some s =>
      if s = "" then .error "Invalid authentication token"
      else if t.sig ≠ { secret := s, signed := t.payload } then
        .error "Invalid authentication token"
      else if t.payload.exp ≤ now then
        .error "Authentication token expired"
      else if t.payload.aud ≠ defaultAudience cfg then
        .error "Invalid authentication token"
      else if t.payload.iss ≠ defaultIssuer cfg then
        .error "Invalid authentication token"
      else .ok t.payload

/-- `JwtUtils.refreshToken(token, newExpiry?)`.  Verifies the input and
reissues with the same `userId`/`username`/`role` and
`expiresIn: newExpiry || defaultOptions.expiresIn`; the surrounding
try/catch converts every failure — verification or signing — into the
single `Error("Failed to refresh token")`. -/
def refreshToken (tok : TokenStr) (newExpiry : Option Nat)
    (cfg : Config) (now : Nat) : Except String Token :=
  match verifyToken tok cfg now with
  | .error _ => .error "Failed to refresh token"
  | .ok p =>
    match generateToken
        { userId := p.userId, username := p.username, role := p.role }
        { expiresIn := some (newExpiry.getD cfg.jwtExpiresIn) }
        cfg now with
    | .error _ => .error "Failed to refresh token"
    | .ok t => .ok t

/-! ## Authorization policy (src/middleware/auth.middleware.ts) -/

/-- The shape of a thrown `GraphQLError` at the service layer: message
plus the `extensions.code` error kind from `ErrorCodes`
(src/types/error.ts). -/
structure GqlError where
  message : String
  code : String
deriving DecidableEq, Repr

/-- `AuthMiddleware.authorize(userId, resourceUserId, role?)`: throws the
`UNAUTHORIZED`-coded error unless the caller owns the resource or has the
`"ADMIN"` role (`role` is optional; `undefined !== "ADMIN"`).  Pure: it
neither receives nor produces any state. -/
def authorize (userId resourceUserId : String) (role : Option String) :
    Except GqlError Unit :=
  if userId ≠ resourceUserId ∧ role ≠ some "ADMIN" then
    .error { message := "Not authorized", code := "UNAUTHORIZED" }
  else .ok ()

/-! ## Error classifier (src/middleware/error-handler.middleware.ts) -/

/-- The result shape `ErrorHandler.handle` builds: a `GraphQLError` with
`extensions.code`, `extensions.statusCode` (absent on some branches) and
`extensions.details`. -/
structure HandledError where
  message : String
  code : String
  statusCode : Option Nat
  details : Option String
deriving DecidableEq, Repr

/-- The failure values `ErrorHandler.handle` dispatches on:
`ServiceError` instances (already carrying message/code/status/details),
`Error`s named `PrismaClientKnownRequestError`, `Error`s named
`ValidationError`, and everything else (any other `Error` — carrying a
message and a stack — or a non-`Error` value). -/
inductive Failure where
  | service : String → String → Nat → Option String → Failure
  | prismaKnown : String → Failure
  | validationFailure : String → Failure
  | otherFailure : (message : String) → (stack : String) → Failure
deriving DecidableEq, Repr

/-- JavaScript `String.prototype.includes(pat)` for a non-empty pattern:
splitting on the pattern yields more than one piece iff it occurs. -/
def strContains (s pat : String) : Bool :=
  (s.splitOn pat).length ≠ 1

/-- `ErrorHandler.handle(error)`, branch for branch: `ServiceError`s pass
through; `PrismaClientKnownRequestError`s whose message mentions a unique
constraint map to `CONFLICT`/409, whose message mentions a missing record
on update map to `NOT_FOUND`/404, and otherwise fall through;
`ValidationError`s map to `BAD_USER_INPUT`/400 keeping the message as
details; everything else becomes the fixed
`"Internal server error"`/`INTERNAL_SERVER_ERROR`/500 result. -/
def handle (e : Failure) : HandledError :=
  match e with
  | .service msg code status details =>
    { message := msg, code := code, statusCode := some status
      details := details }
  | .prismaKnown msg =>
    if strContains msg "Unique constraint failed" then
      { message := "Resource already exists", code := "CONFLICT"
        statusCode := some 409, details := none }
    else if strContains msg "Record to update not found" then
      { message := "Resource not found", code := "NOT_FOUND"
        statusCode := some 404, details := none }
    else
      { message := "Internal server error", code := "INTERNAL_SERVER_ERROR"
        statusCode := some 500, details := none }
  | .validationFailure msg =>
    { message := "Validation failed", code := "BAD_USER_INPUT"
      statusCode := some 400, details := some msg }
  | .otherFailure _ _ =>
    { message := "Internal server error", code := "INTERNAL_SERVER_ERROR"
      statusCode := some 500, details := none }

/-- The recognized failure shapes of `ErrorHandler.handle`: a declared
`ServiceError` kind, a persistence uniqueness violation, a persistence
missing-row fault, or a recognized validation failure. -/
def recognizedFailure (e : Failure) : Bool :=
  match e with
  | .service _ _ _ _ => true
  | .prismaKnown msg =>
    strContains msg "Unique constraint failed" ||
      strContains msg "Record to update not found"
  | .validationFailure _ => true
  | .otherFailure _ _ => false

/-! ## Database model (prisma/schema.prisma) -/

/-- `User` row (the fields the context builder selects). -/
structure User where
  id : String
  username : String
  email : String
  role : String
deriving DecidableEq, Repr

/-- `Post` row (fields relevant to the verified operations). -/
structure Post where
  id : String
  userId : String
deriving DecidableEq, Repr

/-- `Like` row. -/
structure Like where
  id : String
  userId : String
  postId : String
deriving DecidableEq, Repr

/-- `Rating` row (`value` is a database integer). -/
structure Rating where
  id : String
  userId : String
  postId : String
  value : Int
deriving DecidableEq, Repr

/-- `Comment` row; `parentId` is the nullable self-reference of the
`CommentReplies` relation. -/
structure Comment where
  id : String
  userId : String
  postId : String
  content : String
  parentId : Option String
deriving DecidableEq, Repr

/-- The persistent store behind the Prisma client: one table per model. -/
structure DB where
  users : List User
  posts : List Post
  likes : List Like
  ratings : List Rating
  comments : List Comment
deriving DecidableEq, Repr

/-! ## Services (src/graphql/services) -/

/-- The `findFirst` predicate for a Like of the (user, post) pair. -/
def likeFor (userId postId : String) (l : Like) : Bool :=
  l.userId = userId ∧ l.postId = postId

/-- `LikeService.likePost(postId, userId)`: `NOT_FOUND` when the post is
missing; returns the existing Like of the pair when `findFirst` finds
one; otherwise creates a new Like (`newId` stands for the UUID Prisma
generates). -/
def likePost (db : DB) (postId userId newId : String) :
    Except GqlError (Like × DB) :=
  match db.posts.find? (fun p => p.id = postId) with
  | none => .error { message := "Post not found", code := "NOT_FOUND" }
  | some _ =>
    match db.likes.find? (likeFor userId postId) with
    | some l => .ok (l, db)
    | none =>
      let l : Like := { id := newId, userId := userId, postId := postId }
      .ok (l, { db with likes := db.likes ++ [l] })

/-- The `findFirst` predicate for a Rating of the (user, post) pair. -/
def ratingFor (userId postId : String) (r : Rating) : Bool :=
  r.userId = userId ∧ r.postId = postId

/-- `RatingService.ratePost(postId, userId, value)`: `BAD_USER_INPUT`
when `value < 1 || value > 5`; `NOT_FOUND` when the post is missing;
updates the existing Rating of the pair in place when `findFirst` finds
one, else creates a new one. -/
def ratePost (db : DB) (postId userId : String) (value : Int)
    (newId : String) : Except GqlError (Rating × DB) :=
  if value < 1 ∨ value > 5 then
    .error { message := "Rating must be between 1 and 5"
             code := "BAD_USER_INPUT" }
  else
    match db.posts.find? (fun p => p.id = postId) with
    | none => .error { message := "Post not found", code := "NOT_FOUND" }
    | some _ =>
      match db.ratings.find? (ratingFor userId postId) with
      | some r =>
        let r' : Rating := { r with value := value }
        .ok (r', { db with
          ratings := db.ratings.map fun x =>
            if x.id = r.id then { x with value := value } else x })
      | none =>
        let r : Rating :=
          { id := newId, userId := userId, postId := postId, value := value }
        .ok (r, { db with ratings := db.ratings ++ [r] })

/-- JavaScript truthiness of the optional `parentId` string: `undefined`
and `""` are falsy. -/
def optTruthy : Option String → Bool
  | none => false
  | some s => s ≠ ""

/-- What `createComment` can throw: a `GraphQLError` raised by the
service's own checks, or a `PrismaClientKnownRequestError` surfaced by
the insert itself when a foreign key is violated (P2003, carrying the
violated field). -/
inductive CommentError where
  | gql : GqlError → CommentError
  | prismaFk : String → CommentError
deriving DecidableEq, Repr

/-- `prisma.comment.create({data})`: the engine enforces the
`Comment.parentId` foreign key of the `CommentReplies` self-relation
(prisma/schema.prisma line 63) — inserting a non-null `parentId` that
matches no comment id fails with a known request error on that field;
otherwise the row is appended.  (The `userId`/`postId` foreign keys of
the insert are already established: the post is looked up by the service
first and the user id comes from the authenticated caller.) -/
def commentCreate (db : DB) (c : Comment) :
    Except CommentError (Comment × DB) :=
  if c.parentId.isSome ∧
      (db.comments.find? fun x => some x.id = c.parentId) = none then
    .error (.prismaFk "parentId")
  else .ok (c, { db with comments := db.comments ++ [c] })

/-- `CommentService.createComment({postId, content, parentId?}, userId)`:
`NOT_FOUND` when the post is missing; when `if (parentId)` holds (a
non-empty parent id), `NOT_FOUND` when the parent comment is missing and
`BAD_USER_INPUT` when the parent belongs to another post; in every other
case the insert is delegated to `prisma.comment.create` with the given
`parentId` — including `some ""`, which the truthiness test lets through
to the insert unchecked, where the `parentId` foreign key rejects it. -/
def createComment (db : DB) (postId content : String)
    (parentId : Option String) (userId newId : String) :
    Except CommentError (Comment × DB) :=
  match db.posts.find? (fun p => p.id = postId) with
  | none => .error (.gql { message := "Post not found", code := "NOT_FOUND" })
  | some _ =>
    let parentCheck : Except CommentError Unit :=
      if optTruthy parentId then
        match db.comments.find? (fun c => some c.id = parentId) with
        | none =>
          .error (.gql { message := "Parent comment not found"
                         code := "NOT_FOUND" })
        | some parent =>
          if parent.postId ≠ postId then
            .error (.gql
              { message := "Parent comment does not belong to this post"
                code := "BAD_USER_INPUT" })
          else .ok ()
      else .ok ()
    match parentCheck with
    | .error e => .error e
    | .ok _ =>
      commentCreate db
        { id := newId, userId := userId, postId := postId
          content := content, parentId := parentId }

/-- `CommentService.deleteComment(id, userId, userRole)`: `NOT_FOUND`
when the comment is missing; then `AuthMiddleware.authorize`; then
`prisma.comment.delete`, whose `onDelete: SetNull` action on the
`CommentReplies` relation clears `parentId` on every reply of the deleted
comment. -/
def deleteComment (db : DB) (id userId userRole : String) :
    Except GqlError (Bool × DB) :=
  match db.comments.find? (fun c => c.id = id) with
  | none => .error { message := "Comment not found", code := "NOT_FOUND" }
  | some c =>
    match authorize userId c.userId (some userRole) with
    | .error e => .error e
    | .ok _ =>
      .ok (true, { db with
        comments := (db.comments.filter fun x => x.id ≠ id).map fun x =>
          if x.parentId = some id then { x with parentId := none } else x })

/-! ## Context builder (src/index.ts, `startStandaloneServer` context) -/

/-- The per-request GraphQL context fields the services consult. -/
structure Context where
  user : Option User
deriving DecidableEq, Repr

/-- The Apollo context builder: with an empty token the user stays
`null`; otherwise it verifies the token, throws on a falsy
`decoded.userId`, and looks the user up by id — the enclosing try/catch
turns every failure into an anonymous context, and a missing user row
also leaves `user = null`. -/
def buildContext (tok : TokenStr) (db : DB) (cfg : Config) (now : Nat) :
    Context :=
  let user : Option User :=
    match tok with
    | .empty => none
    | t =>
      match verifyToken t cfg now with
      | .error _ => none
      | .ok p =>
        if p.userId = "" then none
        else db.users.find? (fun u => u.id = p.userId)
  { user := user }

/-! ## Concrete fixtures used to instantiate the theorems -/

/-- A configuration with a signing secret and default issuer/audience. -/
def cfg0 : Config :=
  { jwtSecret := some "topsecret", jwtExpiresIn := 3600
    jwtIssuer := none, jwtAudience := none }

/-- A payload whose expiry (5) is in the past relative to `now = 10`. -/
def plOld : JwtPayload :=
  { userId := "u1", username := some "alice", role := some "USER"
    iat := 0, exp := 5, iss := "your-app-name", aud := "your-app-client" }

/-- An expired token correctly signed with `cfg0`'s secret. -/
def tokExpiredGood : Token :=
  { payload := plOld, sig := { secret := "topsecret", signed := plOld } }

/-- An expired token signed with the wrong secret (forged signature). -/
def tokExpiredBad : Token :=
  { payload := plOld, sig := { secret := "wrong", signed := plOld } }

/-- A payload that is still valid at `now = 10` (expiry 4000). -/
def plFresh : JwtPayload :=
  { userId := "u1", username := some "alice", role := some "USER"
    iat := 0, exp := 4000, iss := "your-app-name", aud := "your-app-client" }

/-- A valid, unexpired token signed with `cfg0`'s secret. -/
def tokFresh : Token :=
  { payload := plFresh, sig := { secret := "topsecret", signed := plFresh } }

/-- A store holding one post and nothing else (in particular no user). -/
def db1 : DB :=
  { users := [], posts := [{ id := "p1", userId := "u1" }]
    likes := [], ratings := [], comments := [] }

/-! ## Claim theorems -/

/-- C1: `authorize(u, v, r)` succeeds iff `u = v` or `r = "ADMIN"`, and in
every other case fails with the `UNAUTHORIZED` error kind.  `authorize` is
a pure function of its three arguments — it receives no state and returns
only the decision, so it can mutate nothing. -/
theorem authorize_iff (u v : String) (r : Option String) :
    (authorize u v r = .ok () ↔ (u = v ∨ r = some "ADMIN")) ∧
    (u ≠ v → r ≠ some "ADMIN" →
      authorize u v r =
        .error { message := "Not authorized", code := "UNAUTHORIZED" }) := by
  unfold authorize
  by_cases h1 : u = v <;> by_cases h2 : r = some "ADMIN" <;>
    simp [h1, h2]

/-- Witness for C1: a plain user acting on another user's resource is
rejected with the `UNAUTHORIZED` kind. -/
theorem authorize_iff_witness :
    authorize "alice" "bob" (some "USER") =
      .error { message := "Not authorized", code := "UNAUTHORIZED" } :=
  (authorize_iff "alice" "bob" (some "USER")).2 (by decide) (by decide)

/-- C2: with a configured (non-empty) secret, verifying a token freshly
issued from any claims — at any time before its expiry — succeeds and
returns the same subject id, username and role; only the registered
claims `iat`/`exp` (and the fixed issuer/audience) are added at
issuance. -/
theorem verify_issue_roundtrip (c : JwtClaims) (cfg : Config) (s : String)
    (now now' : Nat) (hsec : cfg.jwtSecret = some s) (hs : s ≠ "")
    (hfresh : now' < now + cfg.jwtExpiresIn) :
    ∃ t, generateToken c {} cfg now = .ok t ∧
      verifyToken (.tok t) cfg now' =
        .ok { userId := c.userId, username := c.username, role := c.role
              iat := now, exp := now + cfg.jwtExpiresIn
              iss := defaultIssuer cfg, aud := defaultAudience cfg } := by
  have hp : generateToken c {} cfg now =
      .ok { payload :=
              { userId := c.userId, username := c.username, role := c.role
                iat := now, exp := now + cfg.jwtExpiresIn
                iss := defaultIssuer cfg, aud := defaultAudience cfg }
            sig :=
              { secret := s
                signed :=
                  { userId := c.userId, username := c.username
                    role := c.role, iat := now
                    exp := now + cfg.jwtExpiresIn
                    iss := defaultIssuer cfg
                    aud := defaultAudience cfg } } } := by
    simp only [generateToken, hsec]
    rw [if_neg hs]
    simp only [Option.getD_none]
  refine ⟨_, hp, ?_⟩
  simp only [verifyToken, hsec]
  rw [if_neg hs, if_neg (by simp), if_neg (by simp; omega),
    if_neg (by simp), if_neg (by simp)]

/-- Witness for C2: a concrete round trip through `cfg0`. -/
theorem verify_issue_roundtrip_witness :
    ∃ t, generateToken
        { userId := "u1", username := some "alice", role := some "USER" }
        {} cfg0 0 = .ok t ∧
      verifyToken (.tok t) cfg0 100 =
        .ok { userId := "u1", username := some "alice", role := some "USER"
              iat := 0, exp := 0 + cfg0.jwtExpiresIn
              iss := defaultIssuer cfg0, aud := defaultAudience cfg0 } :=
  verify_issue_roundtrip
    { userId := "u1", username := some "alice", role := some "USER" }
    cfg0 "topsecret" 0 100 (by decide) (by decide) (by decide)

/-- C3 (amended): `verifyToken` fails with the expired-credential outcome
(`"Authentication token expired"`, from `TokenExpiredError`) for every
credential past its expiry *whose signature is valid under the configured
secret* — regardless of issuer or audience; when the signature is invalid
the signature check runs first and the failure is
`"Invalid authentication token"` instead. -/
theorem verify_expired (t : Token) (cfg : Config) (s : String) (now : Nat)
    (hsec : cfg.jwtSecret = some s) (hs : s ≠ "")
    (hsig : t.sig = { secret := s, signed := t.payload })
    (hexp : t.payload.exp ≤ now) :
    verifyToken (.tok t) cfg now = .error "Authentication token expired" := by
  simp only [verifyToken, hsec]
  rw [if_neg hs, if_neg (by simp [hsig]), if_pos hexp]

/-- Witness for C3 (amended): the correctly-signed expired token. -/
theorem verify_expired_witness :
    verifyToken (.tok tokExpiredGood) cfg0 10 =
      .error "Authentication token expired" :=
  verify_expired tokExpiredGood cfg0 "topsecret" 10 (by decide) (by decide)
    (by decide) (by decide)

/-- Counterexample for C3 as stated: `tokExpiredBad` is past expiry at
`now = 10`, yet — its signature being invalid — verification fails with
the invalid-credential outcome, not the expired-credential one. -/
theorem verify_expired_badsig_cex :
    tokExpiredBad.payload.exp ≤ 10 ∧
    verifyToken (.tok tokExpiredBad) cfg0 10 ≠
      .error "Authentication token expired" ∧
    verifyToken (.tok tokExpiredBad) cfg0 10 =
      .error "Invalid authentication token" := by
  decide

/-- C4 (amended): whenever `verifyToken` fails on the input credential —
expired, bad signature, wrong issuer or audience, malformed or absent —
`refreshToken` also fails, but with the single uniform outcome
`"Failed to refresh token"` produced by its catch block rather than with
verify's own error; in particular a stale credential is never refreshed
into a new valid one. -/
theorem refresh_fails_uniform (tok : TokenStr) (newExpiry : Option Nat)
    (cfg : Config) (now : Nat) (e : String)
    (hv : verifyToken tok cfg now = .error e) :
    refreshToken tok newExpiry cfg now = .error "Failed to refresh token" := by
  simp only [refreshToken, hv]

/-- Witness for C4 (amended): refreshing a forged token fails. -/
theorem refresh_fails_uniform_witness :
    refreshToken (.tok tokExpiredBad) none cfg0 10 =
      .error "Failed to refresh token" :=
  refresh_fails_uniform (.tok tokExpiredBad) none cfg0 10
    "Invalid authentication token" (by decide)

/-- Counterexample for C4 as stated: for the expired (correctly signed)
token, `verifyToken` fails with `"Authentication token expired"` but
`refreshToken` fails with the different outcome
`"Failed to refresh token"` — the error is not passed through. -/
theorem refresh_error_mismatch_cex :
    verifyToken (.tok tokExpiredGood) cfg0 10 =
      .error "Authentication token expired" ∧
    refreshToken (.tok tokExpiredGood) none cfg0 10 =
      .error "Failed to refresh token" ∧
    ("Failed to refresh token" : String) ≠ "Authentication token expired" := by
  decide

/-- C5: every failure outside the recognized shapes (declared
`ServiceError` kind, persistence uniqueness violation, persistence
missing-row fault, recognized validation failure) is classified as the
one fixed result `"Internal server error"`/`INTERNAL_SERVER_ERROR`/500
with no details — a constant, so any two such failures yield identical
results and the original message and stack never appear. -/
theorem handle_unrecognized_constant (e : Failure)
    (h : recognizedFailure e = false) :
    handle e = { message := "Internal server error"
                 code := "INTERNAL_SERVER_ERROR"
                 statusCode := some 500, details := none } := by
  cases e with
  | service m c st d => simp [recognizedFailure] at h
  | prismaKnown m =>
    simp only [recognizedFailure, Bool.or_eq_false_iff] at h
    simp [handle, h.1, h.2]
  | validationFailure m => simp [recognizedFailure] at h
  | otherFailure m st => rfl

/-- Witness for C5: an unexpected runtime fault carrying a sensitive
message and stack classifies to the fixed generic result. -/
theorem handle_unrecognized_witness :
    handle (.otherFailure "ECONNREFUSED db-host:3306 password=hunter2"
        "at PrismaClient.query (client.js:42)") =
      { message := "Internal server error", code := "INTERNAL_SERVER_ERROR"
        statusCode := some 500, details := none } :=
  handle_unrecognized_constant _ (by decide)

/-- If `find?` returns `a` and the filter of the same predicate has at
most one element, that filter is exactly `[a]` (the uniqueness the
`@@unique([userId, postId])` constraints guarantee). -/
theorem filter_eq_single_of_find? {α : Type} (pred : α → Bool) (l : List α)
    (a : α) (hf : l.find? pred = some a)
    (hlen : (l.filter pred).length ≤ 1) : l.filter pred = [a] := by
  induction l with
  | nil => simp at hf
  | cons x t ih =>
    by_cases h : pred x
    · rw [List.find?_cons_of_pos _ h] at hf
      rw [List.filter_cons_of_pos h] at hlen ⊢
      have hx : x = a := Option.some.inj hf
      have ht : t.filter pred = [] := by
        cases e : t.filter pred with
        | nil => rfl
        | cons y ys => rw [e] at hlen; simp at hlen
      rw [ht, hx]
    · rw [List.find?_cons_of_neg _ h] at hf
      rw [List.filter_cons_of_neg h] at hlen ⊢
      exact ih hf hlen

/-- `filter` commutes with `map` when the mapped function preserves the
predicate. -/
theorem filter_map_of_pred_comm {α : Type} (pred : α → Bool) (f : α → α)
    (l : List α) (h : ∀ x, pred (f x) = pred x) :
    (l.map f).filter pred = (l.filter pred).map f := by
  rw [List.filter_map]
  exact congrArg _ (List.filter_congr fun x _ => h x)

/-- C6: with the target post present, `likePost` is idempotent — when a
Like already exists for the (user, post) pair it is returned unchanged
(same id) with the store untouched, and starting from a store with no
Like for the pair, two successive `likePost` calls return the same Like
(the second leaving the store unchanged) and exactly one Like for the
pair is stored afterwards. -/
theorem likePost_idempotent (db : DB) (p u nid nid' : String)
    (hpost : (db.posts.find? fun x => x.id = p).isSome) :
    (∀ l, db.likes.find? (likeFor u p) = some l →
      likePost db p u nid = .ok (l, db)) ∧
    (db.likes.find? (likeFor u p) = none →
      ∃ l db2, likePost db p u nid = .ok (l, db2) ∧
        likePost db2 p u nid' = .ok (l, db2) ∧
        (db2.likes.filter (likeFor u p)).length = 1) := by
  obtain ⟨post, hfind⟩ := Option.isSome_iff_exists.mp hpost
  constructor
  · intro l hl
    simp only [likePost, hfind, hl]
  · intro hn
    refine ⟨{ id := nid, userId := u, postId := p },
      { db with likes := db.likes ++ [{ id := nid, userId := u, postId := p }] },
      ?_, ?_, ?_⟩
    · simp only [likePost, hfind, hn]
    · simp only [likePost, hfind, List.find?_append, hn]
      simp [likeFor]
    · show ((db.likes ++ [({ id := nid, userId := u, postId := p } : Like)]).filter
        (likeFor u p)).length = 1
      rw [List.filter_append,
        List.filter_eq_nil_iff.mpr (List.find?_eq_none.mp hn)]
      simp [likeFor]

/-- Witness for C6: liking post `p1` twice in `db1`. -/
theorem likePost_idempotent_witness :
    ∃ l db2, likePost db1 "p1" "u7" "like1" = .ok (l, db2) ∧
      likePost db2 "p1" "u7" "like2" = .ok (l, db2) ∧
      (db2.likes.filter (likeFor "u7" "p1")).length = 1 :=
  (likePost_idempotent db1 "p1" "u7" "like1" "like2" (by decide)).2 (by decide)

/-- C7: under the per-pair uniqueness the `@@unique([userId, postId])`
constraint guarantees, `ratePost` rejects a value outside `[1,5]` with
`BAD_USER_INPUT`, rejects a missing post (for an in-range value) with
`NOT_FOUND`, and otherwise updates the existing Rating of the pair in
place (same id, store size unchanged) or creates one (fresh id, store
grows by one); afterwards exactly one Rating for the pair is stored and
it carries the submitted value. -/
theorem ratePost_spec (db : DB) (p u nid : String) (v : Int)
    (hwf : (db.ratings.filter (ratingFor u p)).length ≤ 1) :
    ((v < 1 ∨ 5 < v) →
      ratePost db p u v nid =
        .error { message := "Rating must be between 1 and 5"
                 code := "BAD_USER_INPUT" }) ∧
    (1 ≤ v → v ≤ 5 → (db.posts.find? fun x => x.id = p) = none →
      ratePost db p u v nid =
        .error { message := "Post not found", code := "NOT_FOUND" }) ∧
    (1 ≤ v → v ≤ 5 → (db.posts.find? fun x => x.id = p).isSome →
      ∃ r db2, ratePost db p u v nid = .ok (r, db2) ∧
        r.value = v ∧
        (db2.ratings.filter (ratingFor u p)).map (fun x => x.value) = [v] ∧
        (∀ r0, db.ratings.find? (ratingFor u p) = some r0 →
          r.id = r0.id ∧ db2.ratings.length = db.ratings.length) ∧
        (db.ratings.find? (ratingFor u p) = none →
          r.id = nid ∧ db2.ratings.length = db.ratings.length + 1)) := by
  refine ⟨?_, ?_, ?_⟩
  · intro h
    simp only [ratePost, if_pos h]
  · intro h1 h5 hn
    have hcond : ¬(v < 1 ∨ v > 5) := by omega
    simp only [ratePost, if_neg hcond, hn]
  · intro h1 h5 hpost
    obtain ⟨post, hfind⟩ := Option.isSome_iff_exists.mp hpost
    have hcond : ¬(v < 1 ∨ v > 5) := by omega
    cases hex : db.ratings.find? (ratingFor u p) with
    | some r0 =>
      refine ⟨{ r0 with value := v },
        { db with ratings := db.ratings.map fun x =>
            if x.id = r0.id then { x with value := v } else x },
        ?_, rfl, ?_, ?_, ?_⟩
      · simp only [ratePost, if_neg hcond, hfind, hex]
      · show ((db.ratings.map fun x =>
            if x.id = r0.id then { x with value := v } else x).filter
              (ratingFor u p)).map (fun x => x.value) = [v]
        have hpres : ∀ x : Rating,
            ratingFor u p (if x.id = r0.id then { x with value := v } else x) =
              ratingFor u p x := by
          intro x
          by_cases hx : x.id = r0.id <;> simp [hx, ratingFor]
        rw [filter_map_of_pred_comm _ _ _ hpres,
          filter_eq_single_of_find? _ _ _ hex hwf]
        simp
      · intro r1 hr1
        cases Option.some.inj hr1
        exact ⟨rfl, List.length_map _ _⟩
      · intro hnone
        exact Option.noConfusion hnone
    | none =>
      refine ⟨{ id := nid, userId := u, postId := p, value := v },
        { db with ratings := db.ratings ++
            [{ id := nid, userId := u, postId := p, value := v }] },
        ?_, rfl, ?_, ?_, ?_⟩
      · simp only [ratePost, if_neg hcond, hfind, hex]
      · show ((db.ratings ++
            [({ id := nid, userId := u, postId := p, value := v } : Rating)]).filter
              (ratingFor u p)).map (fun x => x.value) = [v]
        rw [List.filter_append,
          List.filter_eq_nil_iff.mpr (List.find?_eq_none.mp hex)]
        simp [ratingFor]
      · intro r0 hr0
        exact Option.noConfusion hr0
      · intro _
        exact ⟨rfl, by simp⟩

/-- Witness for C7: rating post `p1` with 3 then 5 — the second call
updates the Rating created by the first in place, leaving one Rating of
value 5. -/
theorem ratePost_spec_witness :
    ∃ r db2, ratePost db1 "p1" "u7" 3 "rate1" = .ok (r, db2) ∧
      r.value = 3 ∧
      (db2.ratings.filter (ratingFor "u7" "p1")).map (fun x => x.value) = [3] ∧
      (∀ r0, db1.ratings.find? (ratingFor "u7" "p1") = some r0 →
        r.id = r0.id ∧ db2.ratings.length = db1.ratings.length) ∧
      (db1.ratings.find? (ratingFor "u7" "p1") = none →
        r.id = "rate1" ∧ db2.ratings.length = db1.ratings.length + 1) :=
  (ratePost_spec db1 "p1" "u7" "rate1" 3 (by decide)).2.2 (by decide)
    (by decide) (by decide)

/-- C8 (amended): comment creation fails `NOT_FOUND` when the target
post is missing; when a *non-empty* parent id is supplied it fails
`NOT_FOUND` when the parent comment is missing, `BAD_USER_INPUT` when
the parent belongs to a different post, and succeeds with exactly the
given parent id otherwise; with no parent id it succeeds with no parent;
and an *empty-string* parent id bypasses the service's parent checks
(the `if (parentId)` truthiness test) so that, the parent `""` matching
no comment, the insert itself fails with the `parentId` foreign-key
violation from the persistence layer — a failure that is neither
`NOT_FOUND` nor `BAD_USER_INPUT`, so the service's integrity checks are
not the only failures of the operation. -/
theorem createComment_spec (db : DB) (postId content : String)
    (parentId : Option String) (userId newId : String) :
    ((db.posts.find? fun x => x.id = postId) = none →
      createComment db postId content parentId userId newId =
        .error (.gql { message := "Post not found", code := "NOT_FOUND" })) ∧
    ((db.posts.find? fun x => x.id = postId).isSome →
      (∀ pid, parentId = some pid → pid ≠ "" →
        ((db.comments.find? fun c => some c.id = parentId) = none →
          createComment db postId content parentId userId newId =
            .error (.gql { message := "Parent comment not found"
                           code := "NOT_FOUND" })) ∧
        (∀ parent,
          (db.comments.find? fun c => some c.id = parentId) = some parent →
          parent.postId ≠ postId →
          createComment db postId content parentId userId newId =
            .error (.gql
              { message := "Parent comment does not belong to this post"
                code := "BAD_USER_INPUT" })) ∧
        (∀ parent,
          (db.comments.find? fun c => some c.id = parentId) = some parent →
          parent.postId = postId →
          createComment db postId content parentId userId newId =
            .ok ({ id := newId, userId := userId, postId := postId
                   content := content, parentId := parentId },
              { db with comments := db.comments ++
                  [{ id := newId, userId := userId, postId := postId
                     content := content, parentId := parentId }] }))) ∧
      (parentId = none →
        createComment db postId content parentId userId newId =
          .ok ({ id := newId, userId := userId, postId := postId
                 content := content, parentId := parentId },
            { db with comments := db.comments ++
                [{ id := newId, userId := userId, postId := postId
                   content := content, parentId := parentId }] })) ∧
      (parentId = some "" →
        (db.comments.find? fun c => some c.id = parentId) = none →
        createComment db postId content parentId userId newId =
          .error (.prismaFk "parentId"))) := by
  constructor
  · intro hn
    simp only [createComment, hn]
  · intro hpost
    obtain ⟨post, hfind⟩ := Option.isSome_iff_exists.mp hpost
    refine ⟨?_, ?_, ?_⟩
    · intro pid hpid hne
      have htr : optTruthy parentId = true := by
        rw [hpid]; simp [optTruthy, hne]
      refine ⟨?_, ?_, ?_⟩
      · intro hcn
        simp only [createComment, hfind, htr, if_true, hcn]
      · intro parent hcf hdiff
        simp only [createComment, hfind, htr, if_true, hcf, if_pos hdiff]
      · intro parent hcf hsame
        simp only [createComment, hfind, htr, if_true, hcf]
        rw [if_neg (not_not_intro hsame)]
        simp only [commentCreate]
        rw [if_neg (by simp [hcf])]
    · intro hpn
      subst hpn
      simp only [createComment, hfind, optTruthy, Bool.false_eq_true,
        if_false, commentCreate]
      rw [if_neg (by simp)]
    · intro hpe hcn
      subst hpe
      have htr : optTruthy (some "") = false := by simp [optTruthy]
      simp only [createComment, hfind, htr, Bool.false_eq_true, if_false,
        commentCreate]
      rw [if_pos ⟨rfl, hcn⟩]

/-- Witness for C8 (amended): in `db1`, a reply to a missing non-empty
parent id is rejected with `NOT_FOUND`. -/
theorem createComment_spec_witness :
    createComment db1 "p1" "hello" (some "nope") "u2" "c1" =
      .error (.gql { message := "Parent comment not found"
                     code := "NOT_FOUND" }) :=
  ((((createComment_spec db1 "p1" "hello" (some "nope") "u2" "c1").2
    (by decide)).1 "nope" rfl (by decide)).1 (by decide))

/-- Counterexample for C8 as stated: in `db1` no comment has the id `""`,
yet creating a comment with the supplied parent id `""` does not fail
with the `NOT_FOUND` integrity error — the truthiness test skips the
service's parent checks and the insert fails with the `parentId`
foreign-key violation from the persistence layer instead. -/
theorem createComment_empty_parent_cex :
    (db1.comments.find? fun c => some c.id = some "") = none ∧
    createComment db1 "p1" "hello" (some "") "u2" "c1" =
      .error (.prismaFk "parentId") ∧
    createComment db1 "p1" "hello" (some "") "u2" "c1" ≠
      .error (.gql { message := "Parent comment not found"
                     code := "NOT_FOUND" }) := by
  refine ⟨by decide, by decide, by decide⟩

/-- C9: deleting a comment (present, caller authorized) removes only that
comment: every reply that referenced it is retained with its parent id
cleared and all other fields intact, every comment outside its reply set
is unchanged, no comment with the deleted id survives, every surviving
comment comes from the original store (so no descendant is deleted), and
the other tables are untouched. -/
theorem deleteComment_frame (db : DB) (id userId userRole : String)
    (c : Comment) (hfind : (db.comments.find? fun x => x.id = id) = some c)
    (hauth : userId = c.userId ∨ userRole = "ADMIN") :
    ∃ db2, deleteComment db id userId userRole = .ok (true, db2) ∧
      db2.users = db.users ∧ db2.posts = db.posts ∧
      db2.likes = db.likes ∧ db2.ratings = db.ratings ∧
      (∀ x, x ∈ db.comments → x.id ≠ id → x.parentId = some id →
        { x with parentId := none } ∈ db2.comments) ∧
      (∀ x, x ∈ db.comments → x.id ≠ id → x.parentId ≠ some id →
        x ∈ db2.comments) ∧
      (∀ y, y ∈ db2.comments → y.id ≠ id) ∧
      (∀ y, y ∈ db2.comments → ∃ x, x ∈ db.comments ∧ x.id = y.id ∧
        x.userId = y.userId ∧ x.postId = y.postId ∧ x.content = y.content ∧
        (y.parentId = x.parentId ∨
          (x.parentId = some id ∧ y.parentId = none))) := by
  have hok : authorize userId c.userId (some userRole) = .ok () := by
    unfold authorize
    rw [if_neg]
    rintro ⟨hne, hrole⟩
    rcases hauth with h | h
    · exact hne h
    · exact hrole (by rw [h])
  refine ⟨{ db with comments :=
      (db.comments.filter fun x => x.id ≠ id).map fun x =>
        if x.parentId = some id then { x with parentId := none } else x },
    ?_, rfl, rfl, rfl, rfl, ?_, ?_, ?_, ?_⟩
  · simp only [deleteComment, hfind, hok]
  · intro x hx hxid hpx
    have hxf : x ∈ db.comments.filter fun x => x.id ≠ id :=
      List.mem_filter.mpr ⟨hx, by simp [hxid]⟩
    exact List.mem_map.mpr ⟨x, hxf, by simp [hpx]⟩
  · intro x hx hxid hpx
    have hxf : x ∈ db.comments.filter fun x => x.id ≠ id :=
      List.mem_filter.mpr ⟨hx, by simp [hxid]⟩
    exact List.mem_map.mpr ⟨x, hxf, by simp [hpx]⟩
  · intro y hy
    obtain ⟨x, hxf, hfx⟩ := List.mem_map.mp hy
    have hxid : x.id ≠ id := by
      have := (List.mem_filter.mp hxf).2
      simpa using this
    have hyid : y.id = x.id := by
      rw [← hfx]
      by_cases hpx : x.parentId = some id <;> simp [hpx]
    rw [hyid]
    exact hxid
  · intro y hy
    obtain ⟨x, hxf, hfx⟩ := List.mem_map.mp hy
    have hxmem := (List.mem_filter.mp hxf).1
    by_cases hpx : x.parentId = some id
    · have hfx' : ({ x with parentId := none } : Comment) = y := by
        rw [← hfx]; simp [hpx]
      exact ⟨x, hxmem, by rw [← hfx'], by rw [← hfx'], by rw [← hfx'],
        by rw [← hfx'], Or.inr ⟨hpx, by rw [← hfx']⟩⟩
    · have hfx' : x = y := by
        rw [← hfx]; simp [hpx]
      exact ⟨x, hxmem, by rw [← hfx'], by rw [← hfx'], by rw [← hfx'],
        by rw [← hfx'], Or.inl (by rw [← hfx'])⟩

/-- A store with one post, a parent comment and one reply, used to
instantiate comment deletion. -/
def db2c : DB :=
  { users := [], posts := [{ id := "p1", userId := "u1" }]
    likes := [], ratings := []
    comments :=
      [{ id := "c1", userId := "u1", postId := "p1"
         content := "parent", parentId := none },
       { id := "c2", userId := "u2", postId := "p1"
         content := "reply", parentId := some "c1" }] }

/-- Witness for C9: deleting `c1` in `db2c` keeps the reply `c2` with its
parent reference cleared. -/
theorem deleteComment_frame_witness :
    ∃ db2, deleteComment db2c "c1" "u1" "USER" = .ok (true, db2) ∧
      db2.users = db2c.users ∧ db2.posts = db2c.posts ∧
      db2.likes = db2c.likes ∧ db2.ratings = db2c.ratings ∧
      (∀ x, x ∈ db2c.comments → x.id ≠ "c1" → x.parentId = some "c1" →
        { x with parentId := none } ∈ db2.comments) ∧
      (∀ x, x ∈ db2c.comments → x.id ≠ "c1" → x.parentId ≠ some "c1" →
        x ∈ db2.comments) ∧
      (∀ y, y ∈ db2.comments → y.id ≠ "c1") ∧
      (∀ y, y ∈ db2.comments → ∃ x, x ∈ db2c.comments ∧ x.id = y.id ∧
        x.userId = y.userId ∧ x.postId = y.postId ∧ x.content = y.content ∧
        (y.parentId = x.parentId ∨
          (x.parentId = some "c1" ∧ y.parentId = none))) :=
  deleteComment_frame db2c "c1" "u1" "USER"
    { id := "c1", userId := "u1", postId := "p1"
      content := "parent", parentId := none }
    (by decide) (Or.inl rfl)

/-- C10: request-context construction never fails on credential problems:
an absent bearer token, a token failing verification, and a verified
token whose subject id is empty all produce the anonymous context
(`user = null`), and a verified token whose subject matches no stored
user yields exactly the context an absent credential yields. -/
theorem buildContext_anonymous (tok : TokenStr) (db : DB) (cfg : Config)
    (now : Nat) :
    (buildContext .empty db cfg now).user = none ∧
    (∀ e, verifyToken tok cfg now = .error e →
      (buildContext tok db cfg now).user = none) ∧
    (∀ p, verifyToken tok cfg now = .ok p → p.userId = "" →
      (buildContext tok db cfg now).user = none) ∧
    (∀ p, verifyToken tok cfg now = .ok p →
      (db.users.find? fun u => u.id = p.userId) = none →
      buildContext tok db cfg now = buildContext .empty db cfg now) := by
  refine ⟨rfl, ?_, ?_, ?_⟩
  · intro e he
    cases tok with
    | empty => rfl
    | malformed s => simp only [buildContext, he]
    | tok t => simp only [buildContext, he]
  · intro p hp hu
    cases tok with
    | empty => simp [verifyToken] at hp
    | malformed s => simp [verifyToken] at hp
    | tok t => simp [buildContext, hp, hu]
  · intro p hp hn
    cases tok with
    | empty => simp [verifyToken] at hp
    | malformed s => simp [verifyToken] at hp
    | tok t =>
      simp only [buildContext, hp]
      by_cases hu : p.userId = "" <;> simp [hu, hn]

/-- Witness for C10: a correctly signed, unexpired token for the user
`u1`, who is absent from `db1`, builds the same context as no credential
at all. -/
theorem buildContext_anonymous_witness :
    buildContext (.tok tokFresh) db1 cfg0 10 =
      buildContext .empty db1 cfg0 10 :=
  (buildContext_anonymous (.tok tokFresh) db1 cfg0 10).2.2.2 plFresh
    (by decide) (by decide)

end SMB
